import Mathlib

/-!
A shallow embedding of `pifaceio.py` (the PiFace board driver): the
`_SPIdev` reference-counting registry, the `PiFace` board state, its
constructor and its `read` / `read_pin` / `write` / `write_pin` /
`read_outputs` / `close` operations, together with a register-level model
of the MCP23S17 chip so that bus transfers have observable effects.

Python integers are unbounded, so byte values are modelled as `Nat`
(application-level values are masked with `& 0xff` exactly where the
source masks them) and user-supplied arguments as `Int` with Python's
two's-complement semantics made explicit by the `py*` helpers below.
-/

namespace Pifaceio

/-- Python `~x` on an unbounded int: by definition `~x = -x - 1`. -/
def pyNot (x : Int) : Int := -x - 1

/-- Python `x & 0xff` for an arbitrary (possibly negative) int: the low
byte of the two's-complement representation, i.e. `x` modulo 256
(`Int.emod` is nonnegative for a positive modulus, like Python's `%`). -/
def pyAnd255 (x : Int) : Nat := (x % 256).toNat

/-- Python `x & ~(1 << pin)` for a nonnegative `x`: clear bit `pin`.
`x &&& (1 <<< pin)` is `2 ^ pin` when the bit is set and `0` otherwise,
so subtracting it clears exactly that bit. -/
def pyClearBit (x : Nat) (pin : Nat) : Nat := x - (x &&& (1 <<< pin))

/-! ### MCP23S17 register addresses (`pifaceio.py` lines 17-23) -/

/-- `_RA_IODIRA = 0`, I/O direction A. -/
def RA_IODIRA : Nat := 0
/-- `_RA_IODIRB = 1`, I/O direction B. -/
def RA_IODIRB : Nat := 1
/-- `_RA_IOCON = 10`, I/O config. -/
def RA_IOCON : Nat := 10
/-- `_RA_GPPUA = 12`, Port A pullups. -/
def RA_GPPUA : Nat := 12
/-- `_RA_GPPUB = 13`, Port B pullups. -/
def RA_GPPUB : Nat := 13
/-- `_RA_GPIOA = 18`, Port A pins (output). -/
def RA_GPIOA : Nat := 18
/-- `_RA_GPIOB = 19`, Port B pins (input). -/
def RA_GPIOB : Nat := 19

/-- One 3-byte SPI frame `[cmd, reg, data]` as packed by `_SPIdev.create`
and sent by `_SPIdev.write` / `rewrite` / `create_write`. -/
structure Frame where
  cmd : Nat
  reg : Nat
  data : Nat
deriving Repr, DecidableEq

/-- The registers of the MCP23S17 chip that this driver touches.  The
chip itself is outside the repository; its registers are modelled so that
a bus transfer has an observable effect and a read-back returns what was
last written. -/
structure Chip where
  iodira : Nat
  iodirb : Nat
  iocon : Nat
  gppub : Nat
  gpioa : Nat
  gpiob : Nat
deriving Repr, DecidableEq

/-- Read the chip register at address `r` (registers this driver never
addresses read as 0). -/
def Chip.readReg (c : Chip) (r : Nat) : Nat :=
  if r = RA_IODIRA then c.iodira
  else if r = RA_IODIRB then c.iodirb
  else if r = RA_IOCON then c.iocon
  else if r = RA_GPPUB then c.gppub
  else if r = RA_GPIOA then c.gpioa
  else if r = RA_GPIOB then c.gpiob
  else 0

/-- Write `d` to the chip register at address `r`. -/
def Chip.writeReg (c : Chip) (r : Nat) (d : Nat) : Chip :=
  if r = RA_IODIRA then { c with iodira := d }
  else if r = RA_IODIRB then { c with iodirb := d }
  else if r = RA_IOCON then { c with iocon := d }
  else if r = RA_GPPUB then { c with gppub := d }
  else if r = RA_GPIOA then { c with gpioa := d }
  else if r = RA_GPIOB then { c with gpiob := d }
  else c

/-- One successful 3-byte full-duplex exchange (`_SPIdev.write`): bit 0 of
the command byte selects read (1) or write (0); the value returned is the
third response byte, which holds the addressed register's content (its
prior content, in the case of a write). -/
def Chip.transfer (c : Chip) (f : Frame) : Chip × Nat :=
  if f.cmd % 2 = 1 then (c, c.readReg f.reg)
  else (c.writeReg f.reg f.data, c.readReg f.reg)

/-- The state of one `PiFace` instance: its Python attributes
(`read_polarity`, `write_polarity`, `write_cmd`, the prebuilt transfer
frames, `inputs`, `outputs`, `outputs_last`), together with the chip it
talks to and the log of frames successfully transferred on the bus (one
entry per `spi.write` call). -/
structure PiFace where
  read_polarity : Nat
  write_polarity : Nat
  write_cmd : Frame
  read_tx : Frame
  out_tx : Frame
  inputs : Nat
  outputs : Nat
  outputs_last : Nat
  chip : Chip
  trace : List Frame
deriving Repr, DecidableEq

/-- `PiFace.read` (lines 133-136), on a successful transfer:
`self.inputs = self.spi.write(self.read_tx) ^ self.read_polarity`. -/
def PiFace.read (s : PiFace) : PiFace × Nat :=
  let r := s.chip.transfer s.read_tx
  let v := r.2 ^^^ s.read_polarity
  ({ s with chip := r.1, trace := s.trace ++ [s.read_tx], inputs := v }, v)

/-- `PiFace.read` when the bus transfer raises: the assignment to
`self.inputs` is the whole statement and the exception occurs inside its
right-hand side, so nothing is mutated. -/
def PiFace.readFail (s : PiFace) : PiFace := s

/-- `PiFace.read_pin` (lines 138-140):
`bool(self.inputs & (1 << pin))`. -/
def PiFace.read_pin (s : PiFace) (pin : Nat) : Bool :=
  s.inputs &&& (1 <<< pin) != 0

/-- `PiFace.write` (lines 142-153), on a successful transfer: optionally
set `outputs` from `data & 0xff`, return early when `outputs_last`
already equals `outputs` (write suppression), otherwise update
`outputs_last`, patch the data byte of `write_cmd` and transfer it. -/
def PiFace.write (s : PiFace) (data : Option Int) : PiFace :=
  let s1 := match data with
    | some d => { s with outputs := pyAnd255 d }
    | none => s
  if s1.outputs_last = s1.outputs then s1
  else
    let s2 := { s1 with outputs_last := s1.outputs }
    let f := { s2.write_cmd with data := s2.outputs ^^^ s2.write_polarity }
    let r := s2.chip.transfer f
    { s2 with write_cmd := f, chip := r.1, trace := s2.trace ++ [f] }

/-- `PiFace.write` when the bus transfer raises: Python has already
assigned `self.outputs` (when `data` was given), `self.outputs_last` and
`self.write_cmd[2]` before the raising `self.spi.rewrite` call, so those
mutations survive the exception; the chip and the transfer log do not
change.  The Bool records whether a transfer was attempted at all (when
the write is suppressed no transfer happens, so no failure is possible
and the suppressed state is returned unchanged). -/
def PiFace.writeFail (s : PiFace) (data : Option Int) : PiFace × Bool :=
  let s1 := match data with
    | some d => { s with outputs := pyAnd255 d }
    | none => s
  if s1.outputs_last = s1.outputs then (s1, false)
  else
    let s2 := { s1 with outputs_last := s1.outputs }
    ({ s2 with write_cmd := { s2.write_cmd with
        data := s2.outputs ^^^ s2.write_polarity } }, true)

/-- `PiFace.write_pin` (lines 155-160): set or clear bit `pin` of the
pending output byte, with no bus traffic. -/
def PiFace.write_pin (s : PiFace) (pin : Nat) (data : Bool) : PiFace :=
  if data then { s with outputs := s.outputs ||| (1 <<< pin) }
  else { s with outputs := pyClearBit s.outputs pin }

/-- `PiFace.read_outputs` (lines 162-165), on a successful transfer:
`self.outputs_last = self.spi.write(self.out_tx) ^ self.write_polarity`. -/
def PiFace.read_outputs (s : PiFace) : PiFace × Nat :=
  let r := s.chip.transfer s.out_tx
  let v := r.2 ^^^ s.write_polarity
  ({ s with chip := r.1, trace := s.trace ++ [s.out_tx], outputs_last := v }, v)

/-- `PiFace.read_outputs` when the bus transfer raises: as for `read`,
the exception occurs inside the right-hand side of the single assignment,
so nothing is mutated. -/
def PiFace.read_outputsFail (s : PiFace) : PiFace := s

/-- The four initialisation register writes of `PiFace.__init__` (lines
112-125), issued only when `init_board` is set: enable hardware
addressing (IOCON := 8), set port A all-output (IODIRA := 0), set port B
all-input (IODIRB := 0xff), set the port B pull-ups. -/
def initFramesFor (cmdw : Nat) (pull_ups : Int) (init_board : Bool) :
    List Frame :=
  if init_board then
    [⟨cmdw, RA_IOCON, 8⟩, ⟨cmdw, RA_IODIRA, 0⟩,
     ⟨cmdw, RA_IODIRB, 0xff⟩, ⟨cmdw, RA_GPPUB, pyAnd255 pull_ups⟩]
  else []

/-- The board state of `PiFace.__init__` just before the two cache-seeding
reads (lines 99-125, for a valid board number): polarity masks and
prebuilt frames computed, the initialisation writes (if any) applied to
the chip and logged.  The fields Python has not yet assigned at this
point (`inputs`, `outputs`, `outputs_last`) hold 0 and are all
overwritten before the constructor returns. -/
def initBase (board : Int) (pull_ups : Int) (read_polarity : Int)
    (write_polarity : Int) (init_board : Bool) (chip0 : Chip) : PiFace :=
  let cmdw := 0x40 ||| (board.toNat <<< 1)
  let cmdr := cmdw ||| 1
  let frames := initFramesFor cmdw pull_ups init_board
  { read_polarity := pyAnd255 (pyNot read_polarity),
    write_polarity := pyAnd255 (pyNot write_polarity),
    write_cmd := ⟨cmdw, RA_GPIOA, 0⟩,
    read_tx := ⟨cmdr, RA_GPIOB, 0⟩,
    out_tx := ⟨cmdr, RA_GPIOA, 0⟩,
    inputs := 0, outputs := 0, outputs_last := 0,
    chip := frames.foldl (fun c f => (c.transfer f).1) chip0,
    trace := frames }

/-- `PiFace.__init__` (lines 68-131) for one board attached to a chip in
state `chip0`.  The `_spi` registry bookkeeping of lines 92-98 is
modelled separately by `Registry` below; here the constructor is modelled
from the `assert` onwards: validate the board number, build the base
state (masks, frames, initialisation writes), then seed the caches by
reading the output register (`self.outputs = self.read_outputs()`) and
the input register (`self.read()`).  On an out-of-range board number the
`assert` fires before anything else, so the error side carries the assert
message together with the (empty) list of frames transferred before the
failure. -/
def pifaceInit (board : Int) (pull_ups : Int) (read_polarity : Int)
    (write_polarity : Int) (init_board : Bool) (chip0 : Chip) :
    Except (String × List Frame) PiFace :=
  if 0 ≤ board ∧ board < 8 then
    let s0 := initBase board pull_ups read_polarity write_polarity
      init_board chip0
    let r1 := s0.read_outputs
    let s1 := { r1.1 with outputs := r1.2 }
    Except.ok (s1.read).1
  else Except.error ("Board number must be 0 to 7", [])

/-! ### The shared `_SPIdev` registry (`PiFace._spi`) -/

/-- The `_SPIdev` bookkeeping the lifetime claims concern: the reference
count `self.count` (an unbounded Python int) and, as the observable for
"the transport was closed", how many times `close()` has been called on
the underlying file.  The file handle itself is not modelled. -/
structure SPIdev where
  count : Int
  closeCalls : Nat
deriving Repr, DecidableEq

/-- The class-level dict `PiFace._spi` mapping a `(bus, chip)` pair to
its shared `_SPIdev`; a Python dict holds at most one value per key, so
it is modelled as a function into `Option SPIdev`. -/
def Registry := (Nat × Nat) → Option SPIdev

/-- Dict update `r[a] = d` (and, with `d = none`, dict deletion
`del r[a]`). -/
def Registry.set (r : Registry) (a : Nat × Nat) (d : Option SPIdev) :
    Registry :=
  fun b => if b = a then d else r b

/-- The `_spi` bookkeeping of `PiFace.__init__` (lines 92-98): create the
`_SPIdev` on first use of `(bus, chip)` — its `count` starts at 0 — then
`self.spi.count += 1`. -/
def Registry.openBoard (r : Registry) (a : Nat × Nat) : Registry :=
  let r1 := if (r a).isNone then r.set a (some ⟨0, 0⟩) else r
  match r1 a with
  | some d => r1.set a (some { d with count := d.count + 1 })
  | none => r1

/-- `PiFace.close` (lines 171-178): `self.spi.count -= 1`; when the count
reaches zero, close the device and delete the registry entry.  The second
component is the board's own `_SPIdev` reference after the call (Python's
`self.spi` still points at the object after `del PiFace._spi[...]`), so
that "closed exactly once" stays observable after the entry is removed;
it is `none` only in the unreachable case of a board whose address is
missing from the dict. -/
def Registry.closeBoard (r : Registry) (a : Nat × Nat) :
    Registry × Option SPIdev :=
  match r a with
  | none => (r, none)
  | some d =>
    let d1 : SPIdev := { d with count := d.count - 1 }
    if d1.count = 0 then
      (r.set a none, some { d1 with closeCalls := d1.closeCalls + 1 })
    else (r.set a (some d1), some d1)

/-! ### Post-construction operation sequences -/

/-- One application-level operation on a constructed board (the four
operations that touch the caches; `read_pin` and `read_outputs_pin` are
pure observers). -/
inductive Op where
  | read : Op
  | read_outputs : Op
  | write : Option Int → Op
  | write_pin : Nat → Bool → Op
deriving Repr, DecidableEq

/-- Run one operation (successful-transfer semantics). -/
def stepOp (s : PiFace) : Op → PiFace
  | Op.read => (s.read).1
  | Op.read_outputs => (s.read_outputs).1
  | Op.write d => s.write d
  | Op.write_pin p b => s.write_pin p b

/-- Run a sequence of operations. -/
def runOps (s : PiFace) (ops : List Op) : PiFace :=
  ops.foldl stepOp s

/-- Does this frame write the output port register GPIOA?  (Bit 0 of the
command byte clear means write.) -/
def isOutWrite (f : Frame) : Bool :=
  f.cmd % 2 = 0 && f.reg = RA_GPIOA

/-- The data byte of the last GPIOA write in a transfer log, if any: the
raw byte the hardware output register last received. -/
def lastOutWrite (tr : List Frame) : Option Nat :=
  ((tr.filter isOutWrite).getLast?).map Frame.data

/-- A chip with all modelled registers zero. -/
def chipZero : Chip := ⟨0, 0, 0, 0, 0, 0⟩

/-- A placeholder `PiFace` value (never reachable through `pifaceInit`;
used only to totalise `initState` below). -/
def dummyPiFace : PiFace :=
  ⟨0, 0, ⟨0, 0, 0⟩, ⟨0, 0, 0⟩, ⟨0, 0, 0⟩, 0, 0, 0, chipZero, []⟩

/-- The board state after `PiFace(board=0, pull_ups=0xff,
read_polarity=0x00, write_polarity=0xff, init_board=True)` on a chip
whose registers (in particular the output register GPIOA) read 0. -/
def initState : PiFace :=
  match pifaceInit 0 0xff 0x00 0xff true chipZero with
  | Except.ok s => s
  | Except.error _ => dummyPiFace

/-- The last raw byte written to the output register, defaulting to the
register's initial content when no write has transferred yet. -/
def rawLast (raw0 : Nat) (tr : List Frame) : Nat :=
  (lastOutWrite tr).getD raw0

/-- The structural facts about a board state that every post-construction
operation preserves: the prebuilt frames carry the right command parity
and register addresses, the chip's output register holds the last raw
byte written to it, and the cached `outputs_last` is that raw byte seen
through the write-polarity mask. -/
structure Tracks (raw0 : Nat) (s : PiFace) : Prop where
  wcmd_even : s.write_cmd.cmd % 2 = 0
  wcmd_reg : s.write_cmd.reg = RA_GPIOA
  rtx_odd : s.read_tx.cmd % 2 = 1
  otx_odd : s.out_tx.cmd % 2 = 1
  otx_reg : s.out_tx.reg = RA_GPIOA
  gpioa_eq : s.chip.gpioa = rawLast raw0 s.trace
  cache_eq : s.outputs_last = rawLast raw0 s.trace ^^^ s.write_polarity

/-- `Tracks` without the cache equation: what already holds before the
constructor's `read_outputs` call has seeded `outputs_last`. -/
structure PreTracks (raw0 : Nat) (s : PiFace) : Prop where
  wcmd_even : s.write_cmd.cmd % 2 = 0
  wcmd_reg : s.write_cmd.reg = RA_GPIOA
  rtx_odd : s.read_tx.cmd % 2 = 1
  otx_odd : s.out_tx.cmd % 2 = 1
  otx_reg : s.out_tx.reg = RA_GPIOA
  gpioa_eq : s.chip.gpioa = rawLast raw0 s.trace

/-- A registry holding one device at `(0, 0)` with two boards using it. -/
def regTwo : Registry :=
  Registry.set (fun _ => none) (0, 0) (some ⟨2, 0⟩)

/-- A registry holding one device at `(0, 0)` with one board using it. -/
def regOne : Registry :=
  Registry.set (fun _ => none) (0, 0) (some ⟨1, 0⟩)

/-- The empty registry (no device opened yet). -/
def regEmpty : Registry := fun _ => none

/-! ## Theorems -/

/-- Applying an XOR mask twice is the identity. -/
theorem xor_mask_involutive (a m : Nat) : (a ^^^ m) ^^^ m = a := by
  simp [Nat.xor_assoc]

/-- The write command byte `0x40 | (board << 1)` is even for every board
number 0-7. -/
theorem cmdw_even (b : Nat) (hb : b < 8) : (0x40 ||| (b <<< 1)) % 2 = 0 := by
  interval_cases b <;> decide

/-- The read command byte `(0x40 | (board << 1)) | 1` is odd for every
board number 0-7. -/
theorem cmdr_odd (b : Nat) (hb : b < 8) :
    ((0x40 ||| (b <<< 1)) ||| 1) % 2 = 1 := by
  interval_cases b <;> decide

/-- Appending a frame that is not a GPIOA write leaves `lastOutWrite`
unchanged. -/
theorem lastOutWrite_append_not (tr : List Frame) (f : Frame)
    (h : isOutWrite f = false) : lastOutWrite (tr ++ [f]) = lastOutWrite tr := by
  simp [lastOutWrite, List.filter_append, h]

/-- Appending a GPIOA write makes its data byte the `lastOutWrite`. -/
theorem lastOutWrite_append_yes (tr : List Frame) (f : Frame)
    (h : isOutWrite f = true) : lastOutWrite (tr ++ [f]) = some f.data := by
  simp [lastOutWrite, List.filter_append, h]

/-- Unfolding of `PiFace.write` with an explicit byte argument. -/
theorem write_some_eq (s : PiFace) (X : Int) :
    s.write (some X) =
      if s.outputs_last = pyAnd255 X then { s with outputs := pyAnd255 X }
      else
        { s with
          outputs := pyAnd255 X,
          outputs_last := pyAnd255 X,
          write_cmd := { s.write_cmd with data := pyAnd255 X ^^^ s.write_polarity },
          chip := (s.chip.transfer { s.write_cmd with data := pyAnd255 X ^^^ s.write_polarity }).1,
          trace := s.trace ++ [{ s.write_cmd with data := pyAnd255 X ^^^ s.write_polarity }] } := by
  simp only [PiFace.write]

/-- Unfolding of `PiFace.write` with no argument (flush of the pending
byte). -/
theorem write_none_eq (s : PiFace) :
    s.write none =
      if s.outputs_last = s.outputs then s
      else
        { s with
          outputs_last := s.outputs,
          write_cmd := { s.write_cmd with data := s.outputs ^^^ s.write_polarity },
          chip := (s.chip.transfer { s.write_cmd with data := s.outputs ^^^ s.write_polarity }).1,
          trace := s.trace ++ [{ s.write_cmd with data := s.outputs ^^^ s.write_polarity }] } := by
  simp only [PiFace.write]

/-- A `write` whose pending value (after the optional assignment from its
argument) equals the cached `outputs_last` transfers nothing. -/
theorem write_suppressed (s : PiFace) (d : Option Int)
    (h : (match d with
          | some v => pyAnd255 v
          | none => s.outputs) = s.outputs_last) :
    (s.write d).trace = s.trace := by
  cases d with
  | none =>
    rw [write_none_eq, if_pos h.symm]
  | some v =>
    rw [write_some_eq, if_pos h.symm]

/-- C1 (counterexample): on the spec's end-to-end scenario — board 0,
pull-ups 0xff, read-polarity 0x00, write-polarity 0xff, hardware output
register reading 0x00 — the cached output byte after construction is
0x00, not 0xff as claimed, and the single transfer issued by
`write(0x0f)` carries data byte 0x0f, not 0xf0: the constructor stores
the complement `(~0xff) & 0xff = 0x00` as the internal write-polarity
mask, and that is the value XORed into raw bytes. -/
theorem c1_counterexample :
    initState.outputs_last = 0x00 ∧ (0x00 : Nat) ≠ 0xff ∧
    (initState.write (some 0x0f)).trace =
      initState.trace ++ [⟨0x40, RA_GPIOA, 0x0f⟩] ∧
    (0x0f : Nat) ≠ 0xf0 := by
  decide

/-- C1 (amended): opening board 0 with pull-ups 0xff, read-polarity 0x00
and write-polarity 0xff while the hardware output register reads 0x00
caches `0x00 XOR ((~0xff) & 0xff) = 0x00` as the output byte, and a
subsequent `write(0x0f)` issues exactly one bus transfer, whose data byte
is `0x0f XOR ((~0xff) & 0xff) = 0x0f`. -/
theorem c1_amended :
    initState.outputs_last = 0x00 ^^^ pyAnd255 (pyNot 0xff) ∧
    initState.outputs_last = 0x00 ∧
    (initState.write (some 0x0f)).trace =
      initState.trace ++ [⟨0x40, RA_GPIOA, 0x0f ^^^ pyAnd255 (pyNot 0xff)⟩] ∧
    0x0f ^^^ pyAnd255 (pyNot 0xff) = 0x0f := by
  decide

/-- C2 (counterexample): a `write(5)` on the freshly constructed board
attempts a transfer, and when that transfer fails the cached last-written
output byte has nevertheless changed (from 0x00 to 0x05): the code
assigns `self.outputs_last` before calling `self.spi.rewrite`. -/
theorem c2_counterexample :
    (initState.writeFail (some 5)).2 = true ∧
    (initState.writeFail (some 5)).1.outputs_last ≠ initState.outputs_last := by
  decide

/-- C2 (amended): when a transfer fails, `read` and `read_outputs` mutate
no cached state at all; a failing `write` leaves the cached input byte,
the chip and the transfer log untouched, but the pending output byte has
already been set from the argument and, whenever a transfer was actually
attempted (i.e. the write was not suppressed), the cached last-written
output byte has already been updated to the pending value. -/
theorem c2_amended :
    (∀ s : PiFace, s.readFail = s) ∧
    (∀ s : PiFace, s.read_outputsFail = s) ∧
    (∀ (s : PiFace) (d : Option Int),
      (s.writeFail d).1.inputs = s.inputs ∧
      (s.writeFail d).1.chip = s.chip ∧
      (s.writeFail d).1.trace = s.trace ∧
      (s.writeFail d).1.outputs =
        (match d with | some v => pyAnd255 v | none => s.outputs) ∧
      ((s.writeFail d).2 = true →
        (s.writeFail d).1.outputs_last = (s.writeFail d).1.outputs)) := by
  refine ⟨fun s => rfl, fun s => rfl, fun s d => ?_⟩
  cases d with
  | none =>
    simp only [PiFace.writeFail]
    split
    · exact ⟨rfl, rfl, rfl, rfl, by intro h; cases h⟩
    · exact ⟨rfl, rfl, rfl, rfl, fun _ => rfl⟩
  | some v =>
    simp only [PiFace.writeFail]
    split
    · exact ⟨rfl, rfl, rfl, rfl, by intro h; cases h⟩
    · exact ⟨rfl, rfl, rfl, rfl, fun _ => rfl⟩

/-- C2 (amended, witness): instances of the amended statement at the
concrete post-construction state. -/
theorem c2_amended_witness :
    initState.readFail = initState ∧
    (initState.writeFail (some 5)).1.trace = initState.trace :=
  ⟨c2_amended.1 initState, (c2_amended.2.2 initState (some 5)).2.2.1⟩

/-- C4 (counterexample): on the freshly constructed board the cached
output byte is 0x00, so `write(0)` twice in a row issues zero bus
transactions (not exactly one), and `write(0)` then `write(1)` issues
one bus transaction (not exactly two). -/
theorem c4_counterexample :
    ¬ (((initState.write (some 0)).write (some 0)).trace.length =
        initState.trace.length + 1) ∧
    ¬ (((initState.write (some 0)).write (some 1)).trace.length =
        initState.trace.length + 2) := by
  decide

/-- C4 (amended): provided the byte `X & 0xff` differs from the cached
last-written output byte, calling `write(X)` twice in a row issues
exactly one bus transaction, and calling `write(X)` then `write(Y)` with
`X & 0xff ≠ Y & 0xff` issues exactly two; when `X & 0xff` equals the
cached byte the first call is suppressed, so the counts drop to zero and
one respectively. -/
theorem c4_amended (s : PiFace) (X Y : Int)
    (hX : pyAnd255 X ≠ s.outputs_last) :
    ((s.write (some X)).write (some X)).trace.length = s.trace.length + 1 ∧
    (pyAnd255 Y ≠ pyAnd255 X →
      ((s.write (some X)).write (some Y)).trace.length = s.trace.length + 2) := by
  rw [write_some_eq s X, if_neg (fun h => hX h.symm)]
  constructor
  · rw [write_some_eq]
    simp
  · intro hY
    rw [write_some_eq]
    rw [if_neg (fun h => hY h.symm)]
    simp

/-- C4 (amended, witness): the amended counts at the concrete
post-construction state, where the cached output byte is 0x00. -/
theorem c4_amended_witness :
    ((initState.write (some 7)).write (some 7)).trace.length =
      initState.trace.length + 1 ∧
    ((initState.write (some 7)).write (some 9)).trace.length =
      initState.trace.length + 2 :=
  ⟨(c4_amended initState 7 9 (by decide)).1,
   (c4_amended initState 7 9 (by decide)).2 (by decide)⟩

/-- C6 (confirmed): for every board number outside 0-7 the constructor
fails on its `assert` — with the assert's own message — and performs zero
bus transfers: the assert is the first statement of `__init__`, before
the SPI device is even opened. -/
theorem c6_invalid_board (board pull_ups read_polarity write_polarity : Int)
    (init_board : Bool) (chip0 : Chip)
    (h : board < 0 ∨ 8 ≤ board) :
    pifaceInit board pull_ups read_polarity write_polarity init_board chip0 =
      Except.error ("Board number must be 0 to 7", []) := by
  unfold pifaceInit
  rw [if_neg]
  omega

/-- C6 (witness): boards 8 and -1 are rejected with no transfer. -/
theorem c6_invalid_board_witness :
    pifaceInit 8 255 0 255 true chipZero =
      Except.error ("Board number must be 0 to 7", []) ∧
    pifaceInit (-1) 255 0 255 true chipZero =
      Except.error ("Board number must be 0 to 7", []) :=
  ⟨c6_invalid_board 8 255 0 255 true chipZero (Or.inr (by norm_num)),
   c6_invalid_board (-1) 255 0 255 true chipZero (Or.inl (by norm_num))⟩

/-- C5 (confirmed): the `_spi` registry keeps at most one `_SPIdev` per
`(bus, chip)` pair (it is a map).  Opening a board on a pair that is
already present reuses the existing device — its reference count is
incremented, its close count untouched, and no other entry changes —
while a first open creates a device with count 1.  Closing a board whose
device remains in use (count not dropping to 0) keeps the entry and does
not close the transport; closing the last board closes the transport
exactly once and removes the entry from the registry. -/
theorem c5_shared_device :
    (∀ (r : Registry) (a : Nat × Nat) (n : Int) (c : Nat),
      r a = some ⟨n, c⟩ →
      (r.openBoard a) a = some ⟨n + 1, c⟩ ∧
      ∀ b, b ≠ a → (r.openBoard a) b = r b) ∧
    (∀ (r : Registry) (a : Nat × Nat), r a = none →
      (r.openBoard a) a = some ⟨1, 0⟩) ∧
    (∀ (r : Registry) (a : Nat × Nat) (n : Int) (c : Nat),
      r a = some ⟨n, c⟩ → n ≠ 1 →
      (r.closeBoard a).1 a = some ⟨n - 1, c⟩ ∧
      (r.closeBoard a).2 = some ⟨n - 1, c⟩) ∧
    (∀ (r : Registry) (a : Nat × Nat) (c : Nat),
      r a = some ⟨1, c⟩ →
      (r.closeBoard a).1 a = none ∧
      (r.closeBoard a).2 = some ⟨0, c + 1⟩) := by
  refine ⟨fun r a n c h => ?_, fun r a h => ?_, fun r a n c h hn => ?_,
    fun r a c h => ?_⟩
  · constructor
    · simp [Registry.openBoard, Registry.set, h]
    · intro b hb
      simp [Registry.openBoard, Registry.set, h, hb]
  · simp [Registry.openBoard, Registry.set, h]
  · have h1 : n - 1 ≠ 0 := by omega
    constructor
    · simp [Registry.closeBoard, Registry.set, h, h1]
    · simp [Registry.closeBoard, Registry.set, h, h1]
  · constructor
    · simp [Registry.closeBoard, Registry.set, h]
    · simp [Registry.closeBoard, Registry.set, h]

/-- C5 (witness): with two boards sharing the device at `(0, 0)`,
reopening reuses it (count 2 → 3); one close keeps the transport open
(count 2 → 1, zero close calls); with one board left, closing removes the
entry and closes the transport exactly once. -/
theorem c5_shared_device_witness :
    (regTwo.openBoard (0, 0)) (0, 0) = some ⟨3, 0⟩ ∧
    (regTwo.closeBoard (0, 0)).1 (0, 0) = some ⟨1, 0⟩ ∧
    (regTwo.closeBoard (0, 0)).2 = some ⟨1, 0⟩ ∧
    (regOne.closeBoard (0, 0)).1 (0, 0) = none ∧
    (regOne.closeBoard (0, 0)).2 = some ⟨0, 1⟩ ∧
    (regEmpty.openBoard (0, 0)) (0, 0) = some ⟨1, 0⟩ :=
  ⟨(c5_shared_device.1 regTwo (0, 0) 2 0 rfl).1,
   (c5_shared_device.2.2.1 regTwo (0, 0) 2 0 rfl (by norm_num)).1,
   (c5_shared_device.2.2.1 regTwo (0, 0) 2 0 rfl (by norm_num)).2,
   (c5_shared_device.2.2.2 regOne (0, 0) 0 rfl).1,
   (c5_shared_device.2.2.2 regOne (0, 0) 0 rfl).2,
   c5_shared_device.2.1 regEmpty (0, 0) rfl⟩

/-- C7 (confirmed): for every successfully constructed board, the command
byte baked into the write frame is `0x40 | (board << 1)` and the command
byte of both read frames (input port and output port) is that value
OR 1. -/
theorem c7_command_bytes (board pull_ups read_polarity write_polarity : Int)
    (init_board : Bool) (chip0 : Chip) (s : PiFace)
    (h : pifaceInit board pull_ups read_polarity write_polarity init_board
        chip0 = Except.ok s) :
    s.write_cmd.cmd = 0x40 ||| (board.toNat <<< 1) ∧
    s.read_tx.cmd = (0x40 ||| (board.toNat <<< 1)) ||| 1 ∧
    s.out_tx.cmd = (0x40 ||| (board.toNat <<< 1)) ||| 1 := by
  unfold pifaceInit at h
  split at h
  case isTrue hb =>
    simp only [Except.ok.injEq] at h
    subst h
    exact ⟨rfl, rfl, rfl⟩
  case isFalse hb =>
    cases h

/-- C7 (witness): the command bytes on the concrete board 0. -/
theorem c7_command_bytes_witness :
    initState.write_cmd.cmd = 0x40 ||| ((0 : Int).toNat <<< 1) ∧
    initState.read_tx.cmd = (0x40 ||| ((0 : Int).toNat <<< 1)) ||| 1 ∧
    initState.out_tx.cmd = (0x40 ||| ((0 : Int).toNat <<< 1)) ||| 1 :=
  c7_command_bytes 0 0xff 0x00 0xff true chipZero initState rfl

/-- C8 (confirmed): for every configured polarity byte in 0-255, the
stored internal mask is the bitwise complement `(~configured) & 0xff`
(numerically `255 - configured`), for reads and writes alike, and
XORing a raw byte with the stored mask twice is the identity. -/
theorem c8_polarity_masks (board pull_ups read_polarity write_polarity : Int)
    (init_board : Bool) (chip0 : Chip) (s : PiFace)
    (hr0 : 0 ≤ read_polarity) (hr1 : read_polarity < 256)
    (hw0 : 0 ≤ write_polarity) (hw1 : write_polarity < 256)
    (h : pifaceInit board pull_ups read_polarity write_polarity init_board
        chip0 = Except.ok s) :
    s.read_polarity = pyAnd255 (pyNot read_polarity) ∧
    s.write_polarity = pyAnd255 (pyNot write_polarity) ∧
    s.read_polarity = 255 - read_polarity.toNat ∧
    s.write_polarity = 255 - write_polarity.toNat ∧
    (∀ raw : Nat, (raw ^^^ s.read_polarity) ^^^ s.read_polarity = raw) ∧
    (∀ raw : Nat, (raw ^^^ s.write_polarity) ^^^ s.write_polarity = raw) := by
  unfold pifaceInit at h
  split at h
  case isTrue hb =>
    simp only [Except.ok.injEq] at h
    subst h
    refine ⟨rfl, rfl, ?_, ?_, fun raw => xor_mask_involutive raw _,
      fun raw => xor_mask_involutive raw _⟩
    · show pyAnd255 (pyNot read_polarity) = 255 - read_polarity.toNat
      unfold pyAnd255 pyNot
      omega
    · show pyAnd255 (pyNot write_polarity) = 255 - write_polarity.toNat
      unfold pyAnd255 pyNot
      omega
  case isFalse hb =>
    cases h

/-- C8 (witness): the mask facts on the concrete board (configured
read-polarity 0x00 and write-polarity 0xff give internal masks 0xff and
0x00). -/
theorem c8_polarity_masks_witness :
    initState.read_polarity = 255 - (0x00 : Int).toNat ∧
    initState.write_polarity = 255 - (0xff : Int).toNat ∧
    (5 ^^^ initState.read_polarity) ^^^ initState.read_polarity = 5 :=
  ⟨(c8_polarity_masks 0 0xff 0x00 0xff true chipZero initState
      (by norm_num) (by norm_num) (by norm_num) (by norm_num) rfl).2.2.1,
   (c8_polarity_masks 0 0xff 0x00 0xff true chipZero initState
      (by norm_num) (by norm_num) (by norm_num) (by norm_num) rfl).2.2.2.1,
   (c8_polarity_masks 0 0xff 0x00 0xff true chipZero initState
      (by norm_num) (by norm_num) (by norm_num) (by norm_num) rfl).2.2.2.2.1 5⟩

/-- Unfolding of `PiFace.read_outputs` for a board whose output-port read
frame is well-formed (odd command byte, register GPIOA). -/
theorem read_outputs_eq (s : PiFace)
    (hoc : s.out_tx.cmd % 2 = 1) (hor : s.out_tx.reg = RA_GPIOA) :
    s.read_outputs =
      ({ s with
          trace := s.trace ++ [s.out_tx],
          outputs_last := s.chip.gpioa ^^^ s.write_polarity },
        s.chip.gpioa ^^^ s.write_polarity) := by
  simp [PiFace.read_outputs, Chip.transfer, Chip.readReg, hoc, hor,
    RA_IODIRA, RA_IODIRB, RA_IOCON, RA_GPPUB, RA_GPIOA]

/-- C10 (confirmed): a successful `read_outputs` changes only the cached
last-written output byte (and the bus log): the pending output byte and
the cached input byte are untouched, so pin values staged with
`write_pin` survive it; and a subsequent argument-less `write` ends with
the staged byte as the cached output value and its raw image
`outputs ^ write_polarity` in the hardware output register (when the
read-back already equals the staged byte the flush is suppressed because
the hardware already holds that raw image). -/
theorem c10_read_outputs_frame (s : PiFace)
    (hwc : s.write_cmd.cmd % 2 = 0) (hwr : s.write_cmd.reg = RA_GPIOA)
    (hoc : s.out_tx.cmd % 2 = 1) (hor : s.out_tx.reg = RA_GPIOA) :
    (s.read_outputs).1.outputs = s.outputs ∧
    (s.read_outputs).1.inputs = s.inputs ∧
    (s.read_outputs).1.outputs_last = s.chip.gpioa ^^^ s.write_polarity ∧
    ((s.read_outputs).1.write none).outputs = s.outputs ∧
    ((s.read_outputs).1.write none).outputs_last = s.outputs ∧
    ((s.read_outputs).1.write none).chip.gpioa =
      s.outputs ^^^ s.write_polarity := by
  rw [read_outputs_eq s hoc hor]
  refine ⟨rfl, rfl, rfl, ?_⟩
  rw [write_none_eq]
  by_cases hc : s.chip.gpioa ^^^ s.write_polarity = s.outputs
  · rw [if_pos hc]
    refine ⟨rfl, hc, ?_⟩
    show s.chip.gpioa = s.outputs ^^^ s.write_polarity
    rw [← hc, xor_mask_involutive]
  · rw [if_neg hc]
    refine ⟨rfl, rfl, ?_⟩
    show (Chip.transfer _ _).1.gpioa = s.outputs ^^^ s.write_polarity
    simp [Chip.transfer, Chip.writeReg, hwc, hwr,
      RA_IODIRA, RA_IODIRB, RA_IOCON, RA_GPPUB, RA_GPIOA]

/-- C10 (witness): the frame facts at the concrete post-construction
state with pin 3 staged high via `write_pin`. -/
theorem c10_read_outputs_frame_witness :
    ((initState.write_pin 3 true).read_outputs).1.outputs =
      (initState.write_pin 3 true).outputs ∧
    (((initState.write_pin 3 true).read_outputs).1.write none).chip.gpioa =
      (initState.write_pin 3 true).outputs ^^^
        (initState.write_pin 3 true).write_polarity :=
  ⟨(c10_read_outputs_frame (initState.write_pin 3 true)
      (by decide) (by decide) (by decide) (by decide)).1,
   (c10_read_outputs_frame (initState.write_pin 3 true)
      (by decide) (by decide) (by decide) (by decide)).2.2.2.2.2⟩

/-- C9 (confirmed): when constructed with `init_board` set, the
constructor's bus log is exactly six frames: first the four register
writes — I/O-config register (10) with the hardware-addressing enable
value 8, port A direction register (0) with 0 (all output), port B
direction register (1) with 0xff (all input), port B pull-up register
(13) with the pull-up mask — and only then the two port reads (output
port GPIOA, then input port GPIOB).  The first four frames carry the even
write command byte, the two port accesses after them the odd read
command byte. -/
theorem c9_init_sequence (board pull_ups read_polarity write_polarity : Int)
    (chip0 : Chip) (s : PiFace)
    (h : pifaceInit board pull_ups read_polarity write_polarity true chip0 =
      Except.ok s) :
    s.trace =
      [⟨0x40 ||| (board.toNat <<< 1), RA_IOCON, 8⟩,
       ⟨0x40 ||| (board.toNat <<< 1), RA_IODIRA, 0⟩,
       ⟨0x40 ||| (board.toNat <<< 1), RA_IODIRB, 0xff⟩,
       ⟨0x40 ||| (board.toNat <<< 1), RA_GPPUB, pyAnd255 pull_ups⟩,
       ⟨(0x40 ||| (board.toNat <<< 1)) ||| 1, RA_GPIOA, 0⟩,
       ⟨(0x40 ||| (board.toNat <<< 1)) ||| 1, RA_GPIOB, 0⟩] ∧
    (∀ f ∈ s.trace.take 4, f.cmd % 2 = 0) ∧
    (∀ f ∈ s.trace.drop 4, f.cmd % 2 = 1) := by
  unfold pifaceInit at h
  split at h
  case isTrue hb =>
    simp only [Except.ok.injEq] at h
    have hb8 : board.toNat < 8 := by omega
    have htr : s.trace =
        [⟨0x40 ||| (board.toNat <<< 1), RA_IOCON, 8⟩,
         ⟨0x40 ||| (board.toNat <<< 1), RA_IODIRA, 0⟩,
         ⟨0x40 ||| (board.toNat <<< 1), RA_IODIRB, 0xff⟩,
         ⟨0x40 ||| (board.toNat <<< 1), RA_GPPUB, pyAnd255 pull_ups⟩,
         ⟨(0x40 ||| (board.toNat <<< 1)) ||| 1, RA_GPIOA, 0⟩,
         ⟨(0x40 ||| (board.toNat <<< 1)) ||| 1, RA_GPIOB, 0⟩] := by
      rw [← h]
      rfl
    refine ⟨htr, ?_, ?_⟩
    · intro f hf
      have he := cmdw_even board.toNat hb8
      rw [htr] at hf
      simp only [List.take_succ_cons, List.take_zero, List.mem_cons,
        List.not_mem_nil, or_false] at hf
      rcases hf with rfl | rfl | rfl | rfl <;> exact he
    · intro f hf
      have ho := cmdr_odd board.toNat hb8
      rw [htr] at hf
      simp only [List.drop_succ_cons, List.drop_zero, List.mem_cons,
        List.not_mem_nil, or_false] at hf
      rcases hf with rfl | rfl <;> exact ho
  case isFalse hb =>
    cases h

/-- C9 (witness): the construction log on the concrete board 0. -/
theorem c9_init_sequence_witness :
    initState.trace =
      [⟨0x40 ||| ((0 : Int).toNat <<< 1), RA_IOCON, 8⟩,
       ⟨0x40 ||| ((0 : Int).toNat <<< 1), RA_IODIRA, 0⟩,
       ⟨0x40 ||| ((0 : Int).toNat <<< 1), RA_IODIRB, 0xff⟩,
       ⟨0x40 ||| ((0 : Int).toNat <<< 1), RA_GPPUB, pyAnd255 0xff⟩,
       ⟨(0x40 ||| ((0 : Int).toNat <<< 1)) ||| 1, RA_GPIOA, 0⟩,
       ⟨(0x40 ||| ((0 : Int).toNat <<< 1)) ||| 1, RA_GPIOB, 0⟩] :=
  (c9_init_sequence 0 0xff 0x00 0xff chipZero initState rfl).1

/-- A transfer with an odd command byte is a register read: it leaves the
chip unchanged and returns the addressed register. -/
theorem transfer_odd (c : Chip) (f : Frame) (h : f.cmd % 2 = 1) :
    c.transfer f = (c, c.readReg f.reg) := by
  simp [Chip.transfer, h]

/-- A transfer with an even command byte is a register write. -/
theorem transfer_even (c : Chip) (f : Frame) (h : f.cmd % 2 = 0) :
    c.transfer f = (c.writeReg f.reg f.data, c.readReg f.reg) := by
  have h1 : ¬ (f.cmd % 2 = 1) := by omega
  simp [Chip.transfer, h1]

/-- Reading register 18 returns the output port. -/
theorem readReg_gpioa (c : Chip) : c.readReg RA_GPIOA = c.gpioa := by
  simp [Chip.readReg, RA_IODIRA, RA_IODIRB, RA_IOCON, RA_GPPUB, RA_GPIOA]

/-- Writing register 18 sets the output port. -/
theorem writeReg_gpioa (c : Chip) (d : Nat) :
    (c.writeReg RA_GPIOA d).gpioa = d := by
  simp [Chip.writeReg, RA_IODIRA, RA_IODIRB, RA_IOCON, RA_GPPUB, RA_GPIOA]

/-- A frame with an odd command byte is never a GPIOA write. -/
theorem isOutWrite_false_of_odd (f : Frame) (h : f.cmd % 2 = 1) :
    isOutWrite f = false := by
  have h0 : ¬ (f.cmd % 2 = 0) := by omega
  simp [isOutWrite, h0]

/-- Appending a non-GPIOA-write frame leaves `rawLast` unchanged. -/
theorem rawLast_append_not (raw0 : Nat) (tr : List Frame) (f : Frame)
    (h : isOutWrite f = false) :
    rawLast raw0 (tr ++ [f]) = rawLast raw0 tr := by
  unfold rawLast
  rw [lastOutWrite_append_not _ _ h]

/-- Appending a GPIOA write makes its data byte the `rawLast`. -/
theorem rawLast_append_yes (raw0 : Nat) (tr : List Frame) (f : Frame)
    (h : isOutWrite f = true) :
    rawLast raw0 (tr ++ [f]) = f.data := by
  unfold rawLast
  rw [lastOutWrite_append_yes _ _ h]
  rfl

/-- `Tracks` implies `PreTracks`. -/
theorem tracks_pre (raw0 : Nat) (s : PiFace) (hs : Tracks raw0 s) :
    PreTracks raw0 s :=
  ⟨hs.wcmd_even, hs.wcmd_reg, hs.rtx_odd, hs.otx_odd, hs.otx_reg,
   hs.gpioa_eq⟩

/-- Changing only the pending output byte preserves `Tracks`. -/
theorem tracks_outputs_update (raw0 : Nat) (s : PiFace) (v : Nat)
    (hs : Tracks raw0 s) : Tracks raw0 { s with outputs := v } :=
  ⟨hs.wcmd_even, hs.wcmd_reg, hs.rtx_odd, hs.otx_odd, hs.otx_reg,
   hs.gpioa_eq, hs.cache_eq⟩

/-- `read` preserves `Tracks`: its frame is an odd-command read of GPIOB,
so neither the output register nor the output cache moves. -/
theorem tracks_read (raw0 : Nat) (s : PiFace) (hs : Tracks raw0 s) :
    Tracks raw0 (s.read).1 := by
  obtain ⟨h1, h2, h3, h4, h5, h6, h7⟩ := hs
  refine ⟨h1, h2, h3, h4, h5, ?_, ?_⟩
  · show (s.chip.transfer s.read_tx).1.gpioa =
      rawLast raw0 (s.trace ++ [s.read_tx])
    rw [transfer_odd _ _ h3,
      rawLast_append_not _ _ _ (isOutWrite_false_of_odd _ h3)]
    exact h6
  · show s.outputs_last =
      rawLast raw0 (s.trace ++ [s.read_tx]) ^^^ s.write_polarity
    rw [rawLast_append_not _ _ _ (isOutWrite_false_of_odd _ h3)]
    exact h7

/-- `read_outputs` establishes `Tracks` from `PreTracks`: it reads GPIOA
through an odd-command frame and refreshes the cache with exactly
`gpioa ^ write_polarity`. -/
theorem preTracks_read_outputs (raw0 : Nat) (s : PiFace)
    (hp : PreTracks raw0 s) : Tracks raw0 (s.read_outputs).1 := by
  obtain ⟨h1, h2, h3, h4, h5, h6⟩ := hp
  refine ⟨h1, h2, h3, h4, h5, ?_, ?_⟩
  · show (s.chip.transfer s.out_tx).1.gpioa =
      rawLast raw0 (s.trace ++ [s.out_tx])
    rw [transfer_odd _ _ h4,
      rawLast_append_not _ _ _ (isOutWrite_false_of_odd _ h4)]
    exact h6
  · show (s.chip.transfer s.out_tx).2 ^^^ s.write_polarity =
      rawLast raw0 (s.trace ++ [s.out_tx]) ^^^ s.write_polarity
    rw [transfer_odd _ _ h4,
      rawLast_append_not _ _ _ (isOutWrite_false_of_odd _ h4), h5]
    show s.chip.readReg RA_GPIOA ^^^ s.write_polarity = _
    rw [readReg_gpioa, h6]

/-- `read_outputs` preserves `Tracks`. -/
theorem tracks_read_outputs (raw0 : Nat) (s : PiFace) (hs : Tracks raw0 s) :
    Tracks raw0 (s.read_outputs).1 :=
  preTracks_read_outputs raw0 s (tracks_pre raw0 s hs)

/-- An argument-less `write` preserves `Tracks`: either it is suppressed,
or it writes `outputs ^ write_polarity` to GPIOA and caches `outputs`. -/
theorem tracks_write_none (raw0 : Nat) (s : PiFace) (hs : Tracks raw0 s) :
    Tracks raw0 (s.write none) := by
  obtain ⟨h1, h2, h3, h4, h5, h6, h7⟩ := hs
  rw [write_none_eq]
  split
  case isTrue hc =>
    exact ⟨h1, h2, h3, h4, h5, h6, h7⟩
  case isFalse hc =>
    have hfw : isOutWrite { s.write_cmd with
        data := s.outputs ^^^ s.write_polarity } = true := by
      simp [isOutWrite, h1, h2]
    refine ⟨h1, h2, h3, h4, h5, ?_, ?_⟩
    · show (s.chip.transfer { s.write_cmd with
          data := s.outputs ^^^ s.write_polarity }).1.gpioa =
        rawLast raw0 (s.trace ++ [{ s.write_cmd with
          data := s.outputs ^^^ s.write_polarity }])
      rw [transfer_even s.chip { s.write_cmd with
            data := s.outputs ^^^ s.write_polarity } h1,
        rawLast_append_yes _ _ _ hfw]
      show (s.chip.writeReg s.write_cmd.reg
        (s.outputs ^^^ s.write_polarity)).gpioa = s.outputs ^^^ s.write_polarity
      rw [h2, writeReg_gpioa]
    · show s.outputs =
        rawLast raw0 (s.trace ++ [{ s.write_cmd with
          data := s.outputs ^^^ s.write_polarity }]) ^^^ s.write_polarity
      rw [rawLast_append_yes _ _ _ hfw]
      show s.outputs = (s.outputs ^^^ s.write_polarity) ^^^ s.write_polarity
      rw [xor_mask_involutive]

/-- `write(v)` is `write()` after the pending byte is set to `v & 0xff`. -/
theorem write_some_as_none (s : PiFace) (v : Int) :
    s.write (some v) = ({ s with outputs := pyAnd255 v }).write none := rfl

/-- `write` preserves `Tracks` for any argument. -/
theorem tracks_write (raw0 : Nat) (s : PiFace) (d : Option Int)
    (hs : Tracks raw0 s) : Tracks raw0 (s.write d) := by
  cases d with
  | none => exact tracks_write_none raw0 s hs
  | some v =>
    rw [write_some_as_none]
    exact tracks_write_none raw0 _ (tracks_outputs_update raw0 s _ hs)

/-- `write_pin` preserves `Tracks`: it only stages the pending byte. -/
theorem tracks_write_pin (raw0 : Nat) (s : PiFace) (pin : Nat) (b : Bool)
    (hs : Tracks raw0 s) : Tracks raw0 (s.write_pin pin b) := by
  cases b with
  | false =>
    exact ⟨hs.wcmd_even, hs.wcmd_reg, hs.rtx_odd, hs.otx_odd, hs.otx_reg,
      hs.gpioa_eq, hs.cache_eq⟩
  | true =>
    exact ⟨hs.wcmd_even, hs.wcmd_reg, hs.rtx_odd, hs.otx_odd, hs.otx_reg,
      hs.gpioa_eq, hs.cache_eq⟩

/-- Every post-construction operation preserves `Tracks`. -/
theorem tracks_step (raw0 : Nat) (s : PiFace) (op : Op)
    (hs : Tracks raw0 s) : Tracks raw0 (stepOp s op) := by
  cases op with
  | read => exact tracks_read raw0 s hs
  | read_outputs => exact tracks_read_outputs raw0 s hs
  | write d => exact tracks_write raw0 s d hs
  | write_pin p b => exact tracks_write_pin raw0 s p b hs

/-- Every sequence of post-construction operations preserves `Tracks`. -/
theorem tracks_run (raw0 : Nat) (s : PiFace) (ops : List Op)
    (hs : Tracks raw0 s) : Tracks raw0 (runOps s ops) := by
  induction ops generalizing s with
  | nil => exact hs
  | cons op rest ih => exact ih (stepOp s op) (tracks_step raw0 s op hs)

/-- The constructor's base state satisfies `PreTracks`. -/
theorem preTracks_initBase (board pull_ups read_polarity write_polarity : Int)
    (init_board : Bool) (chip0 : Chip)
    (hb : 0 ≤ board ∧ board < 8) :
    PreTracks chip0.gpioa
      (initBase board pull_ups read_polarity write_polarity init_board
        chip0) := by
  have hb8 : board.toNat < 8 := by omega
  refine ⟨cmdw_even _ hb8, rfl, cmdr_odd _ hb8, cmdr_odd _ hb8, rfl, ?_⟩
  show (List.foldl (fun c f => (c.transfer f).1) chip0
      (initFramesFor (0x40 ||| (board.toNat <<< 1)) pull_ups
        init_board)).gpioa =
    rawLast chip0.gpioa
      (initFramesFor (0x40 ||| (board.toNat <<< 1)) pull_ups init_board)
  cases init_board with
  | false => rfl
  | true =>
    have hne : ¬ ((0x40 ||| (board.toNat <<< 1)) % 2 = 1) := by
      have := cmdw_even board.toNat hb8
      omega
    simp [initFramesFor, Chip.transfer, Chip.writeReg, hne, rawLast,
      lastOutWrite, isOutWrite, RA_IOCON, RA_IODIRA, RA_IODIRB, RA_GPPUB,
      RA_GPIOA]

/-- A successfully constructed board satisfies `Tracks` with respect to
the initial content of the hardware output register. -/
theorem tracks_init (board pull_ups read_polarity write_polarity : Int)
    (init_board : Bool) (chip0 : Chip) (s : PiFace)
    (h : pifaceInit board pull_ups read_polarity write_polarity init_board
      chip0 = Except.ok s) :
    Tracks chip0.gpioa s := by
  unfold pifaceInit at h
  split at h
  case isTrue hb =>
    simp only [Except.ok.injEq] at h
    subst h
    exact tracks_read _ _
      (tracks_outputs_update _ _ _
        (preTracks_read_outputs _ _
          (preTracks_initBase board pull_ups read_polarity write_polarity
            init_board chip0 hb)))
  case isFalse hb =>
    cases h

/-- C3 (confirmed): for every successfully constructed board and every
sequence of post-construction operations (with all transfers
succeeding), the cached last-written output byte equals the
application-level image of the data byte of the last GPIOA write frame
in the bus log — i.e. the value last successfully written to hardware by
a `write` — or, when no write has transferred yet, the value read back
from the hardware output register at construction; and any `write` call
whose pending value equals this cached value performs no bus
transaction. -/
theorem c3_output_cache (board pull_ups read_polarity write_polarity : Int)
    (init_board : Bool) (chip0 : Chip) (s0 : PiFace)
    (h : pifaceInit board pull_ups read_polarity write_polarity init_board
      chip0 = Except.ok s0) (ops : List Op) :
    ((runOps s0 ops).outputs_last =
      match lastOutWrite (runOps s0 ops).trace with
      | some d => d ^^^ (runOps s0 ops).write_polarity
      | none => chip0.gpioa ^^^ (runOps s0 ops).write_polarity) ∧
    (∀ d : Option Int,
      (match d with
       | some v => pyAnd255 v
       | none => (runOps s0 ops).outputs) = (runOps s0 ops).outputs_last →
      ((runOps s0 ops).write d).trace = (runOps s0 ops).trace) := by
  have ht := tracks_run chip0.gpioa s0 ops
    (tracks_init board pull_ups read_polarity write_polarity init_board
      chip0 s0 h)
  constructor
  · have hc := ht.cache_eq
    unfold rawLast at hc
    rcases hcase : lastOutWrite (runOps s0 ops).trace with _ | d
    · rw [hcase] at hc
      simpa using hc
    · rw [hcase] at hc
      simpa using hc
  · intro d hd
    exact write_suppressed _ d hd

/-- C3 (witness): after constructing board 0 and running `write(3)`, the
cached byte matches the last GPIOA write in the log, and a `write(3)`
whose pending value equals the cache transfers nothing. -/
theorem c3_output_cache_witness :
    ((runOps initState [Op.write (some 3)]).outputs_last =
      match lastOutWrite (runOps initState [Op.write (some 3)]).trace with
      | some d => d ^^^ (runOps initState [Op.write (some 3)]).write_polarity
      | none => chipZero.gpioa ^^^
          (runOps initState [Op.write (some 3)]).write_polarity) ∧
    ((runOps initState [Op.write (some 3)]).write (some 3)).trace =
      (runOps initState [Op.write (some 3)]).trace :=
  ⟨(c3_output_cache 0 0xff 0x00 0xff true chipZero initState rfl
      [Op.write (some 3)]).1,
   (c3_output_cache 0 0xff 0x00 0xff true chipZero initState rfl
      [Op.write (some 3)]).2 (some 3) (by decide)⟩

end Pifaceio
